import Mathlib

/-!
Verification of the meat_planner repository (a Streamlit meal-planning app).

Shallow embedding conventions:
* Python `float` values are modelled as exact rationals (`ℚ`); the
  application's arithmetic is plain sums and quotients of catalog numbers.
* Python `dict` values are modelled as association lists
  `List (String × α)`; lookup returns the first matching binding,
  assignment updates the first matching binding in place (keeping order)
  or appends, deletion removes the bindings of the key.  This matches the
  behaviour of a Python `dict` (whose keys are unique) on every state the
  program constructs.
* File-system state is explicit: a record of the contents of the files the
  `DataManager` touches, threaded through each operation.
* `datetime.now()` is modelled as an explicit timestamp argument.
-/

namespace MeatPlanner

/-- First-match lookup in an association list (`d.get(k)` / `d[k]` on a
Python dict, whose keys are unique). -/
def dictGet {α : Type} (d : List (String × α)) (k : String) : Option α :=
  (d.find? (fun p => p.1 == k)).map Prod.snd

/-- Python `d[k] = v`: replace the value of the first binding of `k`
(keeping its position), or append a new binding when `k` is absent. -/
def dictSet {α : Type} (d : List (String × α)) (k : String) (v : α) :
    List (String × α) :=
  match d with
  | [] => [(k, v)]
  | (k', v') :: rest =>
    if k' == k then (k', v) :: rest else (k', v') :: dictSet rest k v

/-- Python `del d[k]`: remove the bindings of `k`. -/
def dictDelete {α : Type} (d : List (String × α)) (k : String) :
    List (String × α) :=
  d.filter (fun p => !(p.1 == k))

/-- The keys of an association list, in order (`d.keys()`). -/
def dictKeys {α : Type} (d : List (String × α)) : List String :=
  d.map Prod.fst

-- ==================== models.py : nutrition-level data model ============

/-- Model of `models.FoodItem`: a food name with a quantity in grams. -/
structure FoodItem where
  alimento : String
  quantita : ℚ
deriving DecidableEq, Repr

/-- Model of `models.NutritionValues`: the five tracked nutrients. -/
structure NutritionValues where
  kcal : ℚ := 0
  carbs : ℚ := 0
  protein : ℚ := 0
  fat : ℚ := 0
  fiber : ℚ := 0
deriving DecidableEq, Repr

namespace NutritionValues

/-- Model of `NutritionValues.add` / `__add__`: component-wise sum. -/
def add (a b : NutritionValues) : NutritionValues :=
  { kcal := a.kcal + b.kcal
    carbs := a.carbs + b.carbs
    protein := a.protein + b.protein
    fat := a.fat + b.fat
    fiber := a.fiber + b.fiber }

instance : Add NutritionValues := ⟨add⟩

/-- Model of `NutritionValues.to_dict`. -/
def to_dict (n : NutritionValues) : List (String × ℚ) :=
  [("kcal", n.kcal), ("carbs", n.carbs), ("protein", n.protein),
   ("fat", n.fat), ("fiber", n.fiber)]

/-- Model of `NutritionValues.from_dict` (missing keys default to 0). -/
def from_dict (d : List (String × ℚ)) : NutritionValues :=
  { kcal := (dictGet d "kcal").getD 0
    carbs := (dictGet d "carbs").getD 0
    protein := (dictGet d "protein").getD 0
    fat := (dictGet d "fat").getD 0
    fiber := (dictGet d "fiber").getD 0 }

end NutritionValues

/-- Model of `models.Meal`: a named ordered list of food items. -/
structure Meal where
  name : String
  food_items : List FoodItem
deriving DecidableEq, Repr

/-- Model of `models.Diet`: mapping from meal name to `Meal`. -/
structure Diet where
  meals : List (String × Meal)
deriving DecidableEq, Repr

/-- Model of `models.Day`: one scheduled day, a named mapping from meal name to
`Meal`. -/
structure Day where
  name : String
  meals : List (String × Meal)
deriving DecidableEq, Repr

/-- Model of `models.MealPlan`: mapping from day identifier to `Day`. -/
structure MealPlan where
  days : List (String × Day)
deriving DecidableEq, Repr

/-- Model of `Diet.copy` produces a structurally equal deep copy, so
`Day.reset_to_diet` sets the day's meals to the diet's meals. -/
def Day.reset_to_diet (day : Day) (diet : Diet) : Day :=
  { day with meals := diet.meals }

/-- Model of `MealPlan.reset_all_to_diet`: for each listed day name, create the day
if absent and reset it to the reference diet. -/
def MealPlan.reset_all_to_diet (mp : MealPlan) (diet : Diet)
    (day_names : List String) : MealPlan :=
  ⟨day_names.foldl
    (fun days dn =>
      let day := (dictGet days dn).getD ⟨dn, []⟩
      dictSet days dn (day.reset_to_diet diet))
    mp.days⟩

-- ==================== nutrition_calculator.py ===========================

/-- The `foods_data` catalog handed to `NutritionCalculator`: food name →
per-100g nutrient dict.  Only the numeric keys are relevant to the
calculator (`food_data.get(key, 0)`); a missing entry — and an entry that
is Python-falsy, i.e. an empty dict — yields the all-zero result. -/
def FoodsData : Type := List (String × List (String × ℚ))

/-- Model of `food_data.get(key, 0)` on a catalog entry. -/
def getNum (fd : List (String × ℚ)) (k : String) : ℚ :=
  (dictGet fd k).getD 0

/-- Model of `NutritionCalculator.calculate_food_item_nutrition`: catalog per-100g
values scaled by `quantita / 100`; an unresolved (or falsy) entry gives
`NutritionValues()` (all zero). -/
def calculate_food_item_nutrition (foods : FoodsData) (item : FoodItem) :
    NutritionValues :=
  match dictGet foods item.alimento with
  | none => {}
  | some fd =>
    if fd.isEmpty then {}
    else
      let quantity_factor := item.quantita / 100
      { kcal := getNum fd "kcal" * quantity_factor
        carbs := getNum fd "carbs" * quantity_factor
        protein := getNum fd "protein" * quantity_factor
        fat := getNum fd "fat" * quantity_factor
        fiber := getNum fd "fiber" * quantity_factor }

/-- Model of `NutritionCalculator.calculate_food_items_nutrition`: running sum
starting from `NutritionValues()`. -/
def calculate_food_items_nutrition (foods : FoodsData)
    (items : List FoodItem) : NutritionValues :=
  items.foldl (fun total it => total + calculate_food_item_nutrition foods it) {}

/-- Model of `NutritionCalculator.calculate_meal_nutrition`. -/
def calculate_meal_nutrition (foods : FoodsData) (meal : Meal) :
    NutritionValues :=
  calculate_food_items_nutrition foods meal.food_items

/-- Model of `NutritionCalculator.calculate_diet_nutrition`: sum over the diet's
meals. -/
def calculate_diet_nutrition (foods : FoodsData) (diet : Diet) :
    NutritionValues :=
  diet.meals.foldl (fun total m => total + calculate_meal_nutrition foods m.2) {}

/-- Model of `NutritionCalculator.calculate_day_nutrition`: sum over the day's
meals. -/
def calculate_day_nutrition (foods : FoodsData) (day : Day) :
    NutritionValues :=
  day.meals.foldl (fun total m => total + calculate_meal_nutrition foods m.2) {}

/-- Model of `NutritionCalculator.calculate_meal_plan_nutrition`: per-day totals,
keyed like the meal plan. -/
def calculate_meal_plan_nutrition (foods : FoodsData) (mp : MealPlan) :
    List (String × NutritionValues) :=
  mp.days.map (fun p => (p.1, calculate_day_nutrition foods p.2))

/-- Model of `NutritionCalculator.calculate_variation_percentage`. -/
def calculate_variation_percentage (actual target : ℚ) : ℚ :=
  if target = 0 then (if actual = 0 then 0 else 100)
  else |((actual - target) / target)| * 100

/-- The value stored under `"settimana_N"` in the recap: week totals (as a
nutrition dict) and the week's seven day identifiers. -/
structure WeekRecap where
  totali : List (String × ℚ)
  giorni : List String
deriving DecidableEq, Repr

/-- The recap dict built by `calculate_weekly_recap`.  In Python it is one
dict holding the per-day entries (keyed by the day names) together with
the key `"settimane"`; here the two parts are the two fields. -/
structure Recap where
  days : List (String × List (String × ℚ))
  settimane : List (String × WeekRecap)
deriving DecidableEq, Repr

/-- Day identifier `f"Giorno_{n}"` (main.py line 35, recap_page.py line
28, and the week loop of `calculate_weekly_recap`). -/
def giornoId (n : ℕ) : String := "Giorno_" ++ toString n

/-- The configured 35-day list `[f"Giorno_{i + 1}" for i in range(35)]`. -/
def standardDayNames : List String := (List.range 35).map (fun i => giornoId (i + 1))

/-- The seven day identifiers of week `week` (1-based), as generated in
the week loop: `day_number = (week - 1) * 7 + day_idx + 1`. -/
def weekDayIds (week : ℕ) : List String :=
  (List.range 7).map (fun day_idx => giornoId ((week - 1) * 7 + day_idx + 1))

/-- Model of `NutritionCalculator.calculate_weekly_recap`.  The per-day section
stores `to_dict` of the day's total for every listed day name (all-zero
when the meal plan has no such day); the week loop then looks each probed
`"Giorno_N"` back up in the recap built so far.  At that point the recap
holds exactly the day entries plus the key `"settimane"`, and no probed
identifier equals `"settimane"`, so the lookup is against the day
entries. -/
def calculate_weekly_recap (foods : FoodsData) (mp : MealPlan)
    (day_names : List String) : Recap :=
  let daily := calculate_meal_plan_nutrition foods mp
  let dayEntries := day_names.map (fun dn =>
    (dn, match dictGet daily dn with
         | some nv => nv.to_dict
         | none => NutritionValues.to_dict {}))
  let settimane := (List.range 5).map (fun w =>
    let week := w + 1
    let ids := weekDayIds week
    let week_total := ids.foldl (fun t id =>
      match dictGet dayEntries id with
      | some d => t + NutritionValues.from_dict d
      | none => t) ({} : NutritionValues)
    ("settimana_" ++ toString week, WeekRecap.mk week_total.to_dict ids))
  ⟨dayEntries, settimane⟩

-- ==================== data_manager.py : meal-plan initialization ========

/-- Model of `DataManager.initialize_meal_plan_from_diet`: a fresh `MealPlan()`
reset to the diet over the given day names. -/
def initialize_meal_plan_from_diet (diet : Diet) (day_names : List String) :
    MealPlan :=
  MealPlan.reset_all_to_diet ⟨[]⟩ diet day_names

-- ==================== data_manager.py : persistence layer ===============

/-- JSON documents, the contents of the application's data files. -/
inductive Json where
  | null
  | bool (b : Bool)
  | num (q : ℚ)
  | str (s : String)
  | arr (elems : List Json)
  | obj (fields : List (String × Json))

/-- The bytes of a file: either they parse as JSON or they do not
(`json.load` / `json.loads` raises on the latter). -/
inductive FileData where
  | valid (j : Json)
  | malformed (raw : String)

/-- Model of `DataManager.load_json_file`: a missing file yields the empty mapping
`{}`; a present file either parses or raises
`ValueError(f"Invalid JSON in file {filepath}: ...")`.  Nothing is
retried or recovered: the result is exactly this case split. -/
def load_json_file (filepath : String) (file : Option FileData) :
    Except String Json :=
  match file with
  | none => .ok (.obj [])
  | some (.valid j) => .ok j
  | some (.malformed _) => .error ("Invalid JSON in file " ++ filepath)

-- JSON-level diet model.  `models.Diet.from_dict` / `Meal.from_dict` /
-- `FoodItem.from_dict` perform no type validation on the leaf values:
-- `FoodItem.from_dict` only requires the keys "alimento" and "quantita"
-- to be present in a dict, whatever their values.  These parsers mirror
-- that behaviour, keeping the leaves as raw `Json`.

/-- A food item as persisted: the raw values under `"alimento"` and
`"quantita"`. -/
structure JFoodItem where
  alimento : Json
  quantita : Json

/-- A meal as persisted. -/
structure JMeal where
  name : String
  food_items : List JFoodItem

/-- A diet as persisted: meal name → meal. -/
structure JDiet where
  meals : List (String × JMeal)

/-- Fail-fast traversal: the effect of a Python list comprehension whose
body may raise — the first failing element aborts the whole list. -/
def optionMapM {α β : Type} (f : α → Option β) : List α → Option (List β)
  | [] => some []
  | x :: xs =>
    match f x with
    | none => none
    | some y => (optionMapM f xs).map (fun ys => y :: ys)

/-- Model of `FoodItem.from_dict(data)`: `data["alimento"]` / `data["quantita"]`
raise unless `data` is a dict containing both keys. -/
def JFoodItem.from_dict (j : Json) : Option JFoodItem :=
  match j with
  | .obj fields =>
    match dictGet fields "alimento", dictGet fields "quantita" with
    | some a, some q => some ⟨a, q⟩
    | _, _ => none
  | _ => none

/-- Model of `for item in data`: Python iteration over a JSON value — a list
yields its elements, a string its characters, a dict its keys; numbers,
booleans and `None` raise `TypeError`. -/
def jsonIter (j : Json) : Option (List Json) :=
  match j with
  | .arr xs => some xs
  | .str s => some (s.toList.map (fun c => .str c.toString))
  | .obj fields => some (fields.map (fun f => .str f.1))
  | _ => none

/-- Model of `Meal.from_dict(name, data)`: iterate `data`, parsing every element
as a food item; any raised exception propagates (`none`). -/
def JMeal.from_dict (name : String) (j : Json) : Option JMeal :=
  match jsonIter j with
  | none => none
  | some elems =>
    (optionMapM JFoodItem.from_dict elems).map (fun items => ⟨name, items⟩)

/-- Model of `Diet.from_dict(data)`: `data.items()` requires a dict; each value is
parsed as a meal. -/
def JDiet.from_dict (j : Json) : Option JDiet :=
  match j with
  | .obj fields =>
    (optionMapM (fun f => (JMeal.from_dict f.1 f.2).map (fun m => (f.1, m)))
      fields).map JDiet.mk
  | _ => none

/-- Model of `FoodItem.to_dict`. -/
def JFoodItem.to_dict (it : JFoodItem) : Json :=
  .obj [("alimento", it.alimento), ("quantita", it.quantita)]

/-- Model of `Meal.to_dict`. -/
def JMeal.to_dict (m : JMeal) : Json :=
  .arr (m.food_items.map JFoodItem.to_dict)

/-- Model of `Diet.to_dict`. -/
def JDiet.to_dict (d : JDiet) : Json :=
  .obj (d.meals.map (fun p => (p.1, p.2.to_dict)))

/-- The file-system state touched by the diet operations of
`DataManager`: the committed diet file `data/dieta.json`, the staging
file `data/dieta_temp.json` (`None` = file absent), and the backup
directory `diete_old/` (filename → content). -/
structure FSState where
  diet : Option FileData
  diet_temp : Option FileData
  backups : List (String × FileData)

/-- Model of `DataManager.save_diet`: write `diet.to_dict()` to the diet file. -/
def save_diet (s : FSState) (d : JDiet) : FSState :=
  { s with diet := some (.valid d.to_dict) }

/-- Model of `DataManager.save_diet_temp`: write `diet.to_dict()` to the staging
file. -/
def save_diet_temp (s : FSState) (d : JDiet) : FSState :=
  { s with diet_temp := some (.valid d.to_dict) }

/-- Model of `DataManager.load_diet`: parse the diet file (missing file → empty
mapping → empty diet); `none` models a raised exception. -/
def load_diet (s : FSState) : Option JDiet :=
  match s.diet with
  | none => JDiet.from_dict (.obj [])
  | some (.valid j) => JDiet.from_dict j
  | some (.malformed _) => none

/-- Model of `DataManager.reset_diet_to_original`: delete the staging file when
present, then reload the committed diet. -/
def reset_diet_to_original (s : FSState) : Option JDiet × FSState :=
  let s' := { s with diet_temp := none }
  (load_diet s', s')

/-- Model of `DataManager.backup_current_diet` with `datetime.now()` modelled as
the explicit timestamp `ts`: copy the committed diet file into the backup
directory under `f"dieta_{timestamp}.json"`; `none` models the
`FileNotFoundError` raised by `shutil.copy2` when the diet file is
missing. -/
def backup_current_diet (ts : String) (s : FSState) :
    Option (String × FSState) :=
  let backup_filename := "dieta_" ++ ts ++ ".json"
  match s.diet with
  | none => none
  | some fd =>
    some (backup_filename, { s with backups := dictSet s.backups backup_filename fd })

/-- Model of `DataManager.confirm_diet_changes`: no staging file → failure message
`"Nessuna modifica da confermare"`; otherwise back up the committed file
and move the staging file onto it.  An exception inside the `try` (the
backup failing) is caught and reported as failure with nothing changed. -/
def confirm_diet_changes (ts : String) (s : FSState) :
    (Bool × String) × FSState :=
  match s.diet_temp with
  | none => ((false, "Nessuna modifica da confermare"), s)
  | some tmp =>
    match backup_current_diet ts s with
    | none => ((false, "backup error"), s)
    | some (backup_filename, s') =>
      ((true, backup_filename), { s' with diet := some tmp, diet_temp := none })

/-- Model of `DataManager.load_new_diet_from_file`: decode and parse the uploaded
bytes, validate them as the `Diet` shape, back up the current diet, save
the new one and drop the staging file; any exception along the way is
caught and returned as failure with the state untouched. -/
def load_new_diet_from_file (ts : String) (s : FSState)
    (uploaded : FileData) : (Bool × String × Option JDiet) × FSState :=
  match uploaded with
  | .malformed _ => ((false, "decode or parse error", none), s)
  | .valid j =>
    match JDiet.from_dict j with
    | none => ((false, "invalid diet shape", none), s)
    | some new_diet =>
      match backup_current_diet ts s with
      | none => ((false, "backup error", none), s)
      | some (backup_filename, s') =>
        ((true, backup_filename, some new_diet),
         { save_diet s' new_diet with diet_temp := none })

-- ==================== data_manager.py : foods management ================

/-- Model of `models.Food`: a catalog entry. -/
structure Food where
  name : String
  kcal : ℚ
  carbs : ℚ
  protein : ℚ
  fat : ℚ
  fiber : ℚ
  tipologia : List String
deriving DecidableEq, Repr

/-- Model of `DataManager.can_remove_food`: the placeholder food `"-----"` is
protected. -/
def can_remove_food (food_name : String) : Bool :=
  !(["-----"].contains food_name)

/-- Insert a string into a ≤-sorted list (`sorted` building block). -/
def insertSorted (s : String) : List String → List String
  | [] => [s]
  | t :: rest => if s ≤ t then s :: t :: rest else t :: insertSorted s rest

/-- Python `sorted`: lexicographic string sort. -/
def sortStrings (l : List String) : List String :=
  l.foldr insertSorted []

/-- The content `DataManager.save_foods` writes: the entries rebuilt in
alphabetical key order (`for name in sorted(foods.keys()): ...`). -/
def save_foods_content (foods : List (String × Food)) :
    List (String × Food) :=
  (sortStrings (dictKeys foods)).filterMap
    (fun n => (dictGet foods n).map (fun f => (n, f)))

/-- Model of `DataManager.remove_food` acting on the foods file content (the file
holds the catalog; `load_foods`/`save_foods` convert it): protected or
absent names return `False` without writing; a present name is deleted
and the file rewritten sorted. -/
def remove_food (foodsFile : List (String × Food)) (food_name : String) :
    Bool × List (String × Food) :=
  if !(can_remove_food food_name) then (false, foodsFile)
  else if (dictGet foodsFile food_name).isSome then
    (true, save_foods_content (dictDelete foodsFile food_name))
  else (false, foodsFile)

-- ==================== derived notions used in the statements ============

/-- Component-wise sum of a list of nutrition values, the running-total
shape used throughout `nutrition_calculator.py`. -/
def nvSum (l : List NutritionValues) : NutritionValues :=
  l.foldl (· + ·) {}

/-- The per-day total a recap attributes to a day identifier: the day's
nutrition when the meal plan contains the day, all-zero otherwise. -/
def dayTotal (foods : FoodsData) (mp : MealPlan) (id : String) :
    NutritionValues :=
  match dictGet mp.days id with
  | some d => calculate_day_nutrition foods d
  | none => {}

/-- The spec's example catalog entry (`chicken breast`). -/
def chickenEntry : List (String × ℚ) :=
  [("kcal", 165), ("carbs", 0), ("protein", 31), ("fat", 3.6), ("fiber", 0)]

/-- A one-entry catalog holding the example entry. -/
def chickenCatalog : FoodsData := [("chicken breast", chickenEntry)]

/-- All nutrition aggregates stored in a recap: the per-day dicts and the
per-week `totali` dicts. -/
def recapNutritionEntries (r : Recap) : List (List (String × ℚ)) :=
  r.days.map Prod.snd ++ r.settimane.map (fun p => p.2.totali)

-- Concrete sample data used by witnesses and counterexamples.

/-- A sample persisted diet (meal key matching the meal's name, as the
program always produces). -/
def jdietSample : JDiet := ⟨[("pranzo", ⟨"pranzo", [⟨.str "riso", .num 100⟩]⟩)]⟩

/-- A sample file-system state: committed diet present, no staging file,
no backups. -/
def fsSample : FSState :=
  { diet := some (.valid (.obj [])), diet_temp := none, backups := [] }

/-- A state whose committed diet file holds the sample diet. -/
def fsSample2 : FSState :=
  { diet := some (.valid jdietSample.to_dict), diet_temp := none,
    backups := [] }

/-- Sample catalog entries. -/
def foodA : Food := ⟨"a", 1, 2, 3, 4, 5, []⟩

def foodB : Food := ⟨"b", 10, 20, 30, 40, 50, ["carne"]⟩

def sampleFoods : List (String × Food) := [("a", foodA), ("b", foodB)]

/-- A one-food catalog (1 kcal per 100 g) for the recap counterexample. -/
def cFoods : FoodsData := [("a", [("kcal", 1)])]

/-- A one-meal day holding `q` grams of food `"a"`. -/
def cDay (n : String) (q : ℚ) : Day := ⟨n, [("pasto", ⟨"pasto", [⟨"a", q⟩]⟩)]⟩

/-- A partially populated plan: 30 kcal on day 1, 40 kcal on day 8. -/
def cPlan : MealPlan :=
  ⟨[("Giorno_1", cDay "Giorno_1" 3000), ("Giorno_8", cDay "Giorno_8" 4000)]⟩

/-- The kcal values stored in the recap of `cPlan`: the 35 per-day
entries (30 on day 1, 40 on day 8) followed by the five week totals. -/
def c7KcalList : List ℚ :=
  [30, 0, 0, 0, 0, 0, 0, 40, 0, 0, 0, 0, 0, 0, 0, 0, 0, 0, 0, 0, 0, 0, 0, 0, 0, 0, 0, 0, 0, 0, 0, 0, 0, 0, 0, 30, 40, 0, 0, 0]

/-- A sample reference diet for the meal-plan invariant. -/
def dietSample : Diet := ⟨[("pranzo", ⟨"pranzo", [⟨"riso", 100⟩]⟩)]⟩

-- ==================== helper lemmas =====================================

attribute [ext] NutritionValues

theorem NutritionValues.add_kcal (a b : NutritionValues) :
    (a + b).kcal = a.kcal + b.kcal := rfl

theorem NutritionValues.add_carbs (a b : NutritionValues) :
    (a + b).carbs = a.carbs + b.carbs := rfl

theorem NutritionValues.add_protein (a b : NutritionValues) :
    (a + b).protein = a.protein + b.protein := rfl

theorem NutritionValues.add_fat (a b : NutritionValues) :
    (a + b).fat = a.fat + b.fat := rfl

theorem NutritionValues.add_fiber (a b : NutritionValues) :
    (a + b).fiber = a.fiber + b.fiber := rfl

theorem foldl_add_shift {α : Type} (f : α → NutritionValues) (l : List α)
    (a : NutritionValues) :
    l.foldl (fun t x => t + f x) a = a + l.foldl (fun t x => t + f x) {} := by
  induction l generalizing a with
  | nil =>
    ext <;>
      simp [List.foldl, NutritionValues.add_kcal, NutritionValues.add_carbs,
        NutritionValues.add_protein, NutritionValues.add_fat,
        NutritionValues.add_fiber]
  | cons x xs ih =>
    simp only [List.foldl]
    rw [ih (a + f x), ih ({} + f x)]
    ext <;>
      simp [NutritionValues.add_kcal, NutritionValues.add_carbs,
        NutritionValues.add_protein, NutritionValues.add_fat,
        NutritionValues.add_fiber] <;> ring

theorem calc_items_append (foods : FoodsData) (l1 l2 : List FoodItem) :
    calculate_food_items_nutrition foods (l1 ++ l2) =
      calculate_food_items_nutrition foods l1 +
        calculate_food_items_nutrition foods l2 := by
  unfold calculate_food_items_nutrition
  rw [List.foldl_append]
  exact foldl_add_shift _ l2 _

-- ==================== C1 ================================================

/-- C1: `calculate_food_item_nutrition` returns each nutrient equal to the
catalog entry's per-100g value times `quantita / 100` (missing nutrient
keys counting as 0), returns the all-zero `NutritionValues` when the food
name does not resolve, so the total kcal of a list of food items is the
sum over resolved items of catalog kcal times quantity/100 with
unresolved names contributing zero; the chicken-breast example yields
kcal 247.5 and protein 46.5 at 150 g. -/
theorem c1_food_item_nutrition :
    (∀ (foods : FoodsData) (item : FoodItem) (fd : List (String × ℚ)),
      dictGet foods item.alimento = some fd →
      calculate_food_item_nutrition foods item =
        { kcal := getNum fd "kcal" * (item.quantita / 100)
          carbs := getNum fd "carbs" * (item.quantita / 100)
          protein := getNum fd "protein" * (item.quantita / 100)
          fat := getNum fd "fat" * (item.quantita / 100)
          fiber := getNum fd "fiber" * (item.quantita / 100) }) ∧
    (∀ (foods : FoodsData) (item : FoodItem),
      dictGet foods item.alimento = none →
      calculate_food_item_nutrition foods item = {}) ∧
    (∀ (foods : FoodsData) (items : List FoodItem),
      (calculate_food_items_nutrition foods items).kcal =
        (items.map (fun it =>
          match dictGet foods it.alimento with
          | some fd => getNum fd "kcal" * (it.quantita / 100)
          | none => 0)).sum) ∧
    (calculate_food_item_nutrition chickenCatalog ⟨"chicken breast", 150⟩).kcal
        = 247.5 ∧
    (calculate_food_item_nutrition chickenCatalog
        ⟨"chicken breast", 150⟩).protein = 46.5 := by
  refine ⟨?_, ?_, ?_, ?_, ?_⟩
  · intro foods item fd h
    unfold calculate_food_item_nutrition
    rw [h]
    by_cases he : fd.isEmpty
    · have : fd = [] := List.isEmpty_iff.mp he
      subst this
      ext <;> simp [getNum, dictGet]
    · simp [he]
  · intro foods item h
    unfold calculate_food_item_nutrition
    rw [h]
  · intro foods items
    induction items with
    | nil => rfl
    | cons it its ih =>
      unfold calculate_food_items_nutrition at *
      simp only [List.foldl]
      rw [foldl_add_shift _ its ({} + calculate_food_item_nutrition foods it)]
      simp only [List.map, List.sum_cons, NutritionValues.add_kcal, ih]
      have : (calculate_food_item_nutrition foods it).kcal =
          match dictGet foods it.alimento with
          | some fd => getNum fd "kcal" * (it.quantita / 100)
          | none => 0 := by
        unfold calculate_food_item_nutrition
        cases h : dictGet foods it.alimento with
        | none => rfl
        | some fd =>
          by_cases he : fd.isEmpty
          · have : fd = [] := List.isEmpty_iff.mp he
            subst this
            simp [getNum, dictGet]
          · simp [he]
      rw [this]
      show (0 : ℚ) + _ + _ = _
      ring
  · simp [calculate_food_item_nutrition, chickenCatalog, chickenEntry,
      dictGet, getNum, List.find?]
    norm_num
  · simp [calculate_food_item_nutrition, chickenCatalog, chickenEntry,
      dictGet, getNum, List.find?]
    norm_num

/-- C1 witness: the chicken-breast example instantiates the resolved
case. -/
theorem c1_food_item_nutrition_witness :
    dictGet chickenCatalog "chicken breast" = some chickenEntry ∧
    calculate_food_item_nutrition chickenCatalog ⟨"chicken breast", 150⟩ =
      { kcal := getNum chickenEntry "kcal" * ((150 : ℚ) / 100)
        carbs := getNum chickenEntry "carbs" * ((150 : ℚ) / 100)
        protein := getNum chickenEntry "protein" * ((150 : ℚ) / 100)
        fat := getNum chickenEntry "fat" * ((150 : ℚ) / 100)
        fiber := getNum chickenEntry "fiber" * ((150 : ℚ) / 100) } :=
  ⟨rfl, c1_food_item_nutrition.1 chickenCatalog ⟨"chicken breast", 150⟩
    chickenEntry rfl⟩

-- ==================== C6 ================================================

/-- C6 counterexample: at `actual = 0`, `target = -1` the code returns
100, while the claim's formula `|actual - target| / target × 100`
evaluates to -100, so the claim as stated is false. -/
theorem c6_counterexample :
    calculate_variation_percentage 0 (-1) = 100 ∧
    ¬ calculate_variation_percentage 0 (-1) =
        |(0 : ℚ) - (-1)| / (-1) * 100 := by
  constructor <;> norm_num [calculate_variation_percentage]

/-- C6 amended: `calculate_variation_percentage` equals
`|actual - target| / |target| × 100` (the absolute value applies to the
whole quotient) for nonzero target, 0 when target and actual are both 0,
and 100 when target is 0 and actual is nonzero; hence variation(0,0)=0,
variation(x,0)=100 for nonzero x, and variation(t,t)=0. -/
theorem c6_variation_amended :
    (∀ actual target : ℚ, target ≠ 0 →
      calculate_variation_percentage actual target =
        |actual - target| / |target| * 100) ∧
    calculate_variation_percentage 0 0 = 0 ∧
    (∀ x : ℚ, x ≠ 0 → calculate_variation_percentage x 0 = 100) ∧
    (∀ t : ℚ, calculate_variation_percentage t t = 0) := by
  refine ⟨?_, ?_, ?_, ?_⟩
  · intro a t ht
    simp [calculate_variation_percentage, ht, abs_div]
  · simp [calculate_variation_percentage]
  · intro x hx
    simp [calculate_variation_percentage, hx]
  · intro t
    by_cases h : t = 0 <;> simp [calculate_variation_percentage, h]

/-- C6 witness: the amended equation at (2, 3) and the nonzero-actual
case at (5, 0). -/
theorem c6_variation_amended_witness :
    calculate_variation_percentage 2 3 = |(2 : ℚ) - 3| / |(3 : ℚ)| * 100 ∧
    calculate_variation_percentage 5 0 = 100 :=
  ⟨c6_variation_amended.1 2 3 (by norm_num),
   c6_variation_amended.2.2.1 5 (by norm_num)⟩

-- ==================== C9 ================================================

/-- C9: `load_json_file` returns the empty mapping for a missing file,
raises (`Except.error`) for a present but malformed file, and simply
returns the parsed document for a valid file — no recovery or retry, the
result is exactly this case split. -/
theorem c9_load_json_file :
    (∀ filepath : String,
      load_json_file filepath none = .ok (.obj [])) ∧
    (∀ filepath raw : String,
      ∃ e, load_json_file filepath (some (.malformed raw)) = .error e) ∧
    (∀ (filepath : String) (j : Json),
      load_json_file filepath (some (.valid j)) = .ok j) :=
  ⟨fun _ => rfl, fun _ _ => ⟨_, rfl⟩, fun _ _ => rfl⟩

-- ==================== dict and roundtrip lemmas =========================

theorem dictGet_dictSet_self {α : Type} (d : List (String × α)) (k : String)
    (v : α) : dictGet (dictSet d k v) k = some v := by
  induction d with
  | nil => simp [dictSet, dictGet, List.find?]
  | cons p ps ih =>
    by_cases h : p.1 == k
    · simp [dictSet, h, dictGet, List.find?]
    · simpa [dictSet, h, dictGet, List.find?] using ih

theorem jfooditem_from_to (it : JFoodItem) :
    JFoodItem.from_dict it.to_dict = some it := rfl

theorem mapM_jfooditem (items : List JFoodItem) :
    optionMapM JFoodItem.from_dict (items.map JFoodItem.to_dict) =
      some items := by
  induction items with
  | nil => rfl
  | cons it its ih => simp [optionMapM, jfooditem_from_to, ih]

theorem jmeal_from_to (key : String) (m : JMeal) :
    JMeal.from_dict key m.to_dict = some ⟨key, m.food_items⟩ := by
  simp [JMeal.from_dict, JMeal.to_dict, jsonIter, mapM_jfooditem]

theorem jdiet_meals_mapM (meals : List (String × JMeal))
    (h : ∀ p ∈ meals, (p.2).name = p.1) :
    optionMapM (fun f => (JMeal.from_dict f.1 f.2).map (fun m => (f.1, m)))
      (meals.map (fun p => (p.1, p.2.to_dict))) = some meals := by
  induction meals with
  | nil => rfl
  | cons p ps ih =>
    have hp : p.2.name = p.1 := h p (List.mem_cons_self _ _)
    have ihh := ih (fun q hq => h q (List.mem_cons_of_mem _ hq))
    obtain ⟨k, m⟩ := p
    obtain ⟨mn, mitems⟩ := m
    simp only at hp
    subst hp
    simp [optionMapM, jmeal_from_to, ihh]

theorem jdiet_from_to (d : JDiet) (h : ∀ p ∈ d.meals, (p.2).name = p.1) :
    JDiet.from_dict d.to_dict = some d := by
  obtain ⟨meals⟩ := d
  simp only [JDiet.from_dict, JDiet.to_dict]
  rw [jdiet_meals_mapM meals h]
  rfl

-- ==================== C3 ================================================

/-- C3: with no staging file, `confirm_diet_changes` fails with
"Nessuna modifica da confermare" and changes nothing; after staging a
diet, committing replaces the diet file with the staged content, stores
the previous committed content in the backup directory under
`dieta_<timestamp>.json`, removes the staging file, and reports success
with the backup filename. -/
theorem c3_confirm_diet_changes :
    (∀ (ts : String) (s : FSState), s.diet_temp = none →
      confirm_diet_changes ts s =
        ((false, "Nessuna modifica da confermare"), s)) ∧
    (∀ (ts : String) (s : FSState) (d : JDiet) (old : FileData),
      s.diet = some old →
      confirm_diet_changes ts (save_diet_temp s d) =
        ((true, "dieta_" ++ ts ++ ".json"),
         { diet := some (.valid d.to_dict), diet_temp := none,
           backups := dictSet s.backups ("dieta_" ++ ts ++ ".json") old }) ∧
      dictGet (confirm_diet_changes ts (save_diet_temp s d)).2.backups
          ("dieta_" ++ ts ++ ".json") = some old) := by
  constructor
  · intro ts s h
    simp [confirm_diet_changes, h]
  · intro ts s d old h
    obtain ⟨sd, st, sb⟩ := s
    simp only [Option.some.injEq] at h
    have he : confirm_diet_changes ts (save_diet_temp ⟨sd, st, sb⟩ d) =
        ((true, "dieta_" ++ ts ++ ".json"),
         { diet := some (.valid d.to_dict), diet_temp := none,
           backups := dictSet sb ("dieta_" ++ ts ++ ".json") old }) := by
      simp [confirm_diet_changes, save_diet_temp, backup_current_diet, h]
    exact ⟨he, by rw [he]; exact dictGet_dictSet_self _ _ _⟩

/-- C3 witness: both branches at concrete states. -/
theorem c3_confirm_diet_changes_witness :
    confirm_diet_changes "t0" fsSample =
      ((false, "Nessuna modifica da confermare"), fsSample) ∧
    confirm_diet_changes "t0" (save_diet_temp fsSample jdietSample) =
      ((true, "dieta_t0.json"),
       { diet := some (.valid jdietSample.to_dict), diet_temp := none,
         backups := dictSet fsSample.backups "dieta_t0.json"
           (.valid (.obj [])) }) ∧
    dictGet (confirm_diet_changes "t0"
        (save_diet_temp fsSample jdietSample)).2.backups "dieta_t0.json" =
      some (.valid (.obj [])) :=
  ⟨c3_confirm_diet_changes.1 "t0" fsSample rfl,
   (c3_confirm_diet_changes.2 "t0" fsSample jdietSample (.valid (.obj []))
     rfl).1,
   (c3_confirm_diet_changes.2 "t0" fsSample jdietSample (.valid (.obj []))
     rfl).2⟩

-- ==================== C4 ================================================

/-- C4: `load_new_diet_from_file` on content that fails to decode/parse
or fails to validate as the Diet shape returns failure and leaves the
whole state (committed diet, staging file, backups) untouched; any
successful call parsed the upload, backed up the previous committed diet
under the timestamped name, replaced the diet file with the parsed
content and removed the staging file. -/
theorem c4_load_new_diet_from_file :
    (∀ (ts : String) (s : FSState) (raw : String),
      load_new_diet_from_file ts s (.malformed raw) =
        ((false, "decode or parse error", none), s)) ∧
    (∀ (ts : String) (s : FSState) (j : Json),
      JDiet.from_dict j = none →
      load_new_diet_from_file ts s (.valid j) =
        ((false, "invalid diet shape", none), s)) ∧
    (∀ (ts : String) (s : FSState) (up : FileData),
      (load_new_diet_from_file ts s up).1.1 = true →
      ∃ (j : Json) (d : JDiet) (old : FileData),
        up = .valid j ∧ JDiet.from_dict j = some d ∧ s.diet = some old ∧
        load_new_diet_from_file ts s up =
          ((true, "dieta_" ++ ts ++ ".json", some d),
           { diet := some (.valid d.to_dict), diet_temp := none,
             backups := dictSet s.backups ("dieta_" ++ ts ++ ".json") old })) := by
  refine ⟨fun _ _ _ => rfl, ?_, ?_⟩
  · intro ts s j h
    simp [load_new_diet_from_file, h]
  · intro ts s up h
    match up with
    | .malformed raw => exact absurd h (by simp [load_new_diet_from_file])
    | .valid j =>
      refine ⟨j, ?_⟩
      match hd : JDiet.from_dict j with
      | none =>
        exact absurd h (by simp [load_new_diet_from_file, hd])
      | some d =>
        refine ⟨d, ?_⟩
        obtain ⟨sd, st, sb⟩ := s
        match ho : sd with
        | none =>
          exact absurd h
            (by simp [load_new_diet_from_file, hd, backup_current_diet])
        | some old =>
          refine ⟨old, rfl, rfl, rfl, ?_⟩
          simp [load_new_diet_from_file, hd, backup_current_diet, save_diet]

/-- C4 witness: a malformed upload, a well-formed JSON document that is
not Diet-shaped, and a successful replacement. -/
theorem c4_load_new_diet_from_file_witness :
    load_new_diet_from_file "t0" fsSample (.malformed "oops") =
      ((false, "decode or parse error", none), fsSample) ∧
    JDiet.from_dict (.num 3) = none ∧
    load_new_diet_from_file "t0" fsSample (.valid (.num 3)) =
      ((false, "invalid diet shape", none), fsSample) ∧
    (load_new_diet_from_file "t0" fsSample
        (.valid jdietSample.to_dict)).1.1 = true ∧
    (∃ (j : Json) (d : JDiet) (old : FileData),
      FileData.valid jdietSample.to_dict = .valid j ∧
      JDiet.from_dict j = some d ∧ fsSample.diet = some old ∧
      load_new_diet_from_file "t0" fsSample (.valid jdietSample.to_dict) =
        ((true, "dieta_t0.json", some d),
         { diet := some (.valid d.to_dict), diet_temp := none,
           backups := dictSet fsSample.backups "dieta_t0.json" old })) :=
  ⟨c4_load_new_diet_from_file.1 "t0" fsSample "oops", rfl,
   c4_load_new_diet_from_file.2.1 "t0" fsSample (.num 3) rfl,
   rfl,
   c4_load_new_diet_from_file.2.2 "t0" fsSample (.valid jdietSample.to_dict)
     rfl⟩

-- ==================== C5 ================================================

/-- C5: staging a diet with `save_diet_temp` and then discarding with
`reset_diet_to_original` removes the staging file, leaves the committed
diet file unchanged, and returns a diet structurally equal to the
previously committed one (whose meal keys name their meals, as every diet
the program writes does). -/
theorem c5_reset_diet_to_original :
    ∀ (s : FSState) (staged committed : JDiet),
      (∀ p ∈ committed.meals, (p.2).name = p.1) →
      s.diet = some (.valid committed.to_dict) →
      (reset_diet_to_original (save_diet_temp s staged)).1 = some committed ∧
      (reset_diet_to_original (save_diet_temp s staged)).2.diet_temp = none ∧
      (reset_diet_to_original (save_diet_temp s staged)).2.diet = s.diet := by
  intro s staged committed hwf h
  obtain ⟨sd, st, sb⟩ := s
  simp only at h
  subst h
  refine ⟨?_, rfl, rfl⟩
  simp [reset_diet_to_original, save_diet_temp, load_diet,
    jdiet_from_to committed hwf]

/-- C5 witness: staging and discarding over the sample committed diet. -/
theorem c5_reset_diet_to_original_witness :
    (reset_diet_to_original (save_diet_temp fsSample2 ⟨[]⟩)).1 =
      some jdietSample ∧
    (reset_diet_to_original (save_diet_temp fsSample2 ⟨[]⟩)).2.diet_temp =
      none ∧
    (reset_diet_to_original (save_diet_temp fsSample2 ⟨[]⟩)).2.diet =
      fsSample2.diet :=
  c5_reset_diet_to_original fsSample2 ⟨[]⟩ jdietSample
    (by intro p hp
        simp only [jdietSample, List.mem_singleton] at hp
        subst hp
        rfl)
    rfl

-- ==================== C10 ===============================================

theorem mem_insertSorted (a s : String) (l : List String) :
    a ∈ insertSorted s l ↔ a = s ∨ a ∈ l := by
  induction l with
  | nil => simp [insertSorted]
  | cons t ts ih =>
    by_cases h : s ≤ t
    · simp [insertSorted, h]
    · simp [insertSorted, h, ih]
      tauto

theorem mem_sortStrings (a : String) (l : List String) :
    a ∈ sortStrings l ↔ a ∈ l := by
  induction l with
  | nil => simp [sortStrings]
  | cons t ts ih =>
    simp only [sortStrings, List.foldr] at *
    rw [mem_insertSorted, ih, List.mem_cons]

theorem dictGet_cons {α : Type} (p : String × α) (ps : List (String × α))
    (k : String) :
    dictGet (p :: ps) k = if p.1 == k then some p.2 else dictGet ps k := by
  simp only [dictGet, List.find?]
  cases h : p.1 == k <;> simp

theorem dictGet_rebuild (l : List (String × Food)) (names : List String)
    (m : String) :
    dictGet (names.filterMap (fun n => (dictGet l n).map (fun f => (n, f)))) m
      = if m ∈ names then dictGet l m else none := by
  induction names with
  | nil => simp [dictGet]
  | cons n ns ih =>
    by_cases hm : m = n
    · subst hm
      cases hn : dictGet l m with
      | none => simp [List.filterMap_cons, hn, ih]
      | some f => simp [List.filterMap_cons, hn, dictGet_cons]
    · cases hn : dictGet l n with
      | none => simp [List.filterMap_cons, hn, ih, hm]
      | some f =>
        have hb : (n == m) = false := by simp [Ne.symm hm]
        simp [List.filterMap_cons, hn, dictGet_cons, hb, ih, hm]

theorem dictDelete_cons {α : Type} (p : String × α) (ps : List (String × α))
    (k : String) :
    dictDelete (p :: ps) k =
      if p.1 == k then dictDelete ps k else p :: dictDelete ps k := by
  simp only [dictDelete, List.filter]
  cases h : p.1 == k <;> simp

theorem dictGet_dictDelete_self {α : Type} (l : List (String × α))
    (k : String) : dictGet (dictDelete l k) k = none := by
  induction l with
  | nil => rfl
  | cons p ps ih =>
    by_cases h : p.1 == k
    · simp [dictDelete_cons, h, ih]
    · simp [dictDelete_cons, h, dictGet_cons, ih]

theorem dictGet_dictDelete_ne {α : Type} (l : List (String × α))
    (k m : String) (h : m ≠ k) :
    dictGet (dictDelete l k) m = dictGet l m := by
  induction l with
  | nil => rfl
  | cons p ps ih =>
    by_cases hp : (p.1 == k) = true
    · have hpk : p.1 = k := by simpa using hp
      have hb : (p.1 == m) = false := by simp [hpk, Ne.symm h]
      simp [dictDelete_cons, hp, dictGet_cons, hb, ih]
    · simp only [Bool.not_eq_true] at hp
      simp [dictDelete_cons, hp, dictGet_cons, ih]

theorem mem_dictKeys_iff_isSome {α : Type} (l : List (String × α))
    (m : String) : m ∈ dictKeys l ↔ (dictGet l m).isSome := by
  induction l with
  | nil => simp [dictKeys, dictGet]
  | cons p ps ih =>
    by_cases hm : p.1 = m
    · simp [dictKeys, dictGet_cons, hm]
    · have hmb : (p.1 == m) = false := by simp [hm]
      simp only [dictKeys, List.map_cons, List.mem_cons]
      rw [show dictKeys ps = List.map Prod.fst ps from rfl] at ih
      simp [dictGet_cons, hmb, Ne.symm hm, ih]

theorem dictGet_save_foods_content (l : List (String × Food)) (m : String) :
    dictGet (save_foods_content l) m = dictGet l m := by
  unfold save_foods_content
  rw [dictGet_rebuild]
  by_cases h : m ∈ sortStrings (dictKeys l)
  · simp [h]
  · rw [if_neg h]
    rw [mem_sortStrings, mem_dictKeys_iff_isSome] at h
    cases hg : dictGet l m with
    | none => rfl
    | some f => exact absurd (by simp [hg]) h

/-- C10: the placeholder food `"-----"` is protected —
`can_remove_food` rejects it and `remove_food` returns `False` without
touching the catalog file; removing a name absent from the catalog also
returns `False` without a rewrite; and whenever `remove_food` returns
`True` the rewritten catalog binds exactly the other names to their
previous entries and no longer binds the removed name. -/
theorem c10_remove_food :
    can_remove_food "-----" = false ∧
    (∀ foodsFile : List (String × Food),
      remove_food foodsFile "-----" = (false, foodsFile)) ∧
    (∀ (foodsFile : List (String × Food)) (name : String),
      dictGet foodsFile name = none →
      remove_food foodsFile name = (false, foodsFile)) ∧
    (∀ (foodsFile : List (String × Food)) (name : String),
      (remove_food foodsFile name).1 = true →
      dictGet (remove_food foodsFile name).2 name = none ∧
      ∀ m : String, m ≠ name →
        dictGet (remove_food foodsFile name).2 m = dictGet foodsFile m) := by
  refine ⟨rfl, fun _ => rfl, ?_, ?_⟩
  · intro foodsFile name h
    by_cases hc : can_remove_food name
    · simp [remove_food, hc, h]
    · simp only [Bool.not_eq_true] at hc
      simp [remove_food, hc]
  · intro foodsFile name h
    by_cases hc : can_remove_food name
    · by_cases hs : (dictGet foodsFile name).isSome
      · have he : remove_food foodsFile name =
            (true, save_foods_content (dictDelete foodsFile name)) := by
          simp [remove_food, hc, hs]
        rw [he]
        refine ⟨?_, ?_⟩
        · rw [dictGet_save_foods_content, dictGet_dictDelete_self]
        · intro m hm
          rw [dictGet_save_foods_content, dictGet_dictDelete_ne _ _ _ hm]
      · exact absurd h (by simp [remove_food, hc, hs])
    · simp only [Bool.not_eq_true] at hc
      exact absurd h (by simp [remove_food, hc])

/-- C10 witness: the protected name, an absent name, and an actual
removal from the sample catalog. -/
theorem c10_remove_food_witness :
    remove_food sampleFoods "zzz" = (false, sampleFoods) ∧
    (remove_food sampleFoods "a").1 = true ∧
    dictGet (remove_food sampleFoods "a").2 "a" = none ∧
    dictGet (remove_food sampleFoods "a").2 "b" = dictGet sampleFoods "b" :=
  ⟨c10_remove_food.2.2.1 sampleFoods "zzz" rfl,
   rfl,
   (c10_remove_food.2.2.2 sampleFoods "a" rfl).1,
   (c10_remove_food.2.2.2 sampleFoods "a" rfl).2 "b" (by decide)⟩

-- ==================== C8 ================================================

theorem dictGet_append {α : Type} (a b : List (String × α)) (k : String) :
    dictGet (a ++ b) k =
      match dictGet a k with
      | some v => some v
      | none => dictGet b k := by
  induction a with
  | nil => rfl
  | cons p ps ih =>
    cases hb : p.1 == k <;> simp [dictGet_cons, hb, ih]

theorem dictSet_absent {α : Type} (d : List (String × α)) (k : String)
    (v : α) (h : dictGet d k = none) : dictSet d k v = d ++ [(k, v)] := by
  induction d with
  | nil => rfl
  | cons p ps ih =>
    rw [dictGet_cons] at h
    cases hb : p.1 == k
    · simp only [hb] at h
      simp [dictSet, hb, ih h]
    · simp [hb] at h

theorem reset_fold_general (diet : Diet) (names : List String)
    (acc : List (String × Day)) (h : ∀ n ∈ names, dictGet acc n = none)
    (hnd : names.Nodup) :
    names.foldl
      (fun days dn =>
        let day := (dictGet days dn).getD ⟨dn, []⟩
        dictSet days dn (day.reset_to_diet diet)) acc =
      acc ++ names.map (fun dn => (dn, ⟨dn, diet.meals⟩)) := by
  induction names generalizing acc with
  | nil => simp
  | cons n ns ih =>
    have hn : dictGet acc n = none := h n (List.mem_cons_self _ _)
    have hstep :
        (let day := (dictGet acc n).getD ⟨n, []⟩
         dictSet acc n (day.reset_to_diet diet)) =
          acc ++ [(n, ⟨n, diet.meals⟩)] := by
      rw [hn]
      exact dictSet_absent acc n _ hn
    simp only [List.foldl_cons, List.map_cons]
    rw [hstep]
    have hnotin : n ∉ ns := (List.nodup_cons.mp hnd).1
    have h' : ∀ m ∈ ns, dictGet (acc ++ [(n, (⟨n, diet.meals⟩ : Day))]) m =
        none := by
      intro m hm
      have h1 : dictGet acc m = none := h m (List.mem_cons_of_mem _ hm)
      have h2 : (n == m) = false := by
        simp only [beq_eq_false_iff_ne, ne_eq]
        intro hc
        exact hnotin (hc ▸ hm)
      rw [dictGet_append, h1]
      simp [dictGet_cons, h2, dictGet]
    rw [ih _ h' (List.nodup_cons.mp hnd).2]
    simp

theorem standardDayNames_nodup : standardDayNames.Nodup := by decide

theorem init_days_eq (diet : Diet) :
    (initialize_meal_plan_from_diet diet standardDayNames).days =
      standardDayNames.map (fun dn => (dn, ⟨dn, diet.meals⟩)) := by
  show (MealPlan.reset_all_to_diet ⟨[]⟩ diet standardDayNames).days = _
  unfold MealPlan.reset_all_to_diet
  rw [reset_fold_general diet standardDayNames []
    (fun n _ => rfl) standardDayNames_nodup]
  rfl

/-- C8 counterexample: the configured day identifiers are
`"Giorno_1".."Giorno_35"` (main.py line 35, recap_page.py line 28), not
`"Day_1".."Day_35"` as the claim states — an initialized meal plan has no
entry at `"Day_1"`, and its key list differs from the claimed one. -/
theorem c8_counterexample :
    dictGet (initialize_meal_plan_from_diet ⟨[]⟩ standardDayNames).days
        "Day_1" = none ∧
    dictKeys (initialize_meal_plan_from_diet ⟨[]⟩ standardDayNames).days ≠
      (List.range 35).map (fun i => "Day_" ++ toString (i + 1)) := by
  constructor
  · rfl
  · decide

/-- C8 amended: a meal plan initialized from a diet over the configured
35-day list has exactly 35 entries keyed `"Giorno_1".."Giorno_35"` in
order, and every day's meals are structurally equal to the reference
diet's meals (so its meal-name set equals the diet's meal names). -/
theorem c8_meal_plan_invariant_amended :
    ∀ diet : Diet,
      dictKeys (initialize_meal_plan_from_diet diet standardDayNames).days =
        standardDayNames ∧
      (initialize_meal_plan_from_diet diet standardDayNames).days.length = 35 ∧
      ∀ p ∈ (initialize_meal_plan_from_diet diet standardDayNames).days,
        (p.2).meals = diet.meals ∧ (p.2).name = p.1 ∧
        dictKeys (p.2).meals = dictKeys diet.meals := by
  intro diet
  rw [init_days_eq]
  refine ⟨?_, ?_, ?_⟩
  · simp [dictKeys, List.map_map]
    rfl
  · simp [standardDayNames]
  · intro p hp
    simp only [List.mem_map] at hp
    obtain ⟨dn, _, hpe⟩ := hp
    subst hpe
    exact ⟨rfl, rfl, rfl⟩

/-- C8 witness: the amended invariant at the sample diet; the entry at
`"Giorno_1"` carries the diet's meals. -/
theorem c8_meal_plan_invariant_amended_witness :
    dictKeys (initialize_meal_plan_from_diet dietSample
        standardDayNames).days = standardDayNames ∧
    (initialize_meal_plan_from_diet dietSample standardDayNames).days.length
        = 35 ∧
    (("Giorno_1", (⟨"Giorno_1", dietSample.meals⟩ : Day)) ∈
        (initialize_meal_plan_from_diet dietSample standardDayNames).days ∧
      (⟨"Giorno_1", dietSample.meals⟩ : Day).meals = dietSample.meals) :=
  ⟨(c8_meal_plan_invariant_amended dietSample).1,
   (c8_meal_plan_invariant_amended dietSample).2.1,
   by
    have hm : ("Giorno_1", (⟨"Giorno_1", dietSample.meals⟩ : Day)) ∈
        (initialize_meal_plan_from_diet dietSample standardDayNames).days := by
      rw [init_days_eq]
      exact List.mem_map.mpr ⟨"Giorno_1", by decide, rfl⟩
    exact ⟨hm,
      ((c8_meal_plan_invariant_amended dietSample).2.2 _ hm).1⟩⟩

-- ==================== recap characterization (C2, C7) ===================

theorem nv_from_to (nv : NutritionValues) :
    NutritionValues.from_dict nv.to_dict = nv := rfl

theorem dictGet_map_values {α β : Type} (h : α → β)
    (l : List (String × α)) (k : String) :
    dictGet (l.map (fun p => (p.1, h p.2))) k = (dictGet l k).map h := by
  induction l with
  | nil => rfl
  | cons p ps ih => cases hb : p.1 == k <;> simp [dictGet_cons, hb, ih]

theorem recap_day_entry (foods : FoodsData) (mp : MealPlan) (dn : String) :
    (match dictGet (calculate_meal_plan_nutrition foods mp) dn with
     | some nv => nv.to_dict
     | none => NutritionValues.to_dict {}) =
      (dayTotal foods mp dn).to_dict := by
  unfold calculate_meal_plan_nutrition dayTotal
  rw [dictGet_map_values]
  cases h : dictGet mp.days dn <;> simp

theorem weekly_recap_eq (foods : FoodsData) (mp : MealPlan) :
    calculate_weekly_recap foods mp standardDayNames =
      ⟨standardDayNames.map (fun dn => (dn, (dayTotal foods mp dn).to_dict)),
       (List.range 5).map (fun w =>
         ("settimana_" ++ toString (w + 1),
          ⟨(nvSum ((weekDayIds (w + 1)).map (dayTotal foods mp))).to_dict,
           weekDayIds (w + 1)⟩))⟩ := by
  simp only [calculate_weekly_recap, recap_day_entry]
  congr 1

theorem nvSum_append (l1 l2 : List NutritionValues) :
    nvSum (l1 ++ l2) = nvSum l1 + nvSum l2 := by
  unfold nvSum
  rw [List.foldl_append]
  exact foldl_add_shift (fun x => x) l2 _

theorem nvSum_flatten (ls : List (List NutritionValues)) :
    nvSum ls.flatten = nvSum (ls.map nvSum) := by
  induction ls with
  | nil => rfl
  | cons l ls ih =>
    simp only [List.flatten_cons, List.map_cons]
    rw [nvSum_append, ih]
    show _ = List.foldl _ ({} + nvSum l) _
    rw [show (List.foldl (· + ·) ({} + nvSum l) (ls.map nvSum)) =
        ({} + nvSum l) + nvSum (ls.map nvSum) from
      foldl_add_shift (fun x => x) _ _]
    ext <;>
      simp [NutritionValues.add_kcal, NutritionValues.add_carbs,
        NutritionValues.add_protein, NutritionValues.add_fat,
        NutritionValues.add_fiber]

theorem meals_fold_concat (foods : FoodsData) (meals : List (String × Meal)) :
    meals.foldl (fun t m => t + calculate_meal_nutrition foods m.2) {} =
      calculate_food_items_nutrition foods
        ((meals.map (fun m => (m.2).food_items)).flatten) := by
  induction meals with
  | nil => rfl
  | cons m ms ih =>
    simp only [List.foldl_cons, List.map_cons, List.flatten_cons]
    rw [foldl_add_shift (fun m => calculate_meal_nutrition foods m.2) ms,
      calc_items_append, ih]
    ext <;>
      simp [NutritionValues.add_kcal, NutritionValues.add_carbs,
        NutritionValues.add_protein, NutritionValues.add_fat,
        NutritionValues.add_fiber, calculate_meal_nutrition]

theorem standardDayNames_flatten :
    standardDayNames =
      ((List.range 5).map (fun w => weekDayIds (w + 1))).flatten := by decide

theorem weeks_sum_eq_period (foods : FoodsData) (mp : MealPlan) :
    nvSum ((List.range 5).map (fun w =>
        nvSum ((weekDayIds (w + 1)).map (dayTotal foods mp)))) =
      nvSum (standardDayNames.map (dayTotal foods mp)) := by
  rw [standardDayNames_flatten, List.map_flatten, nvSum_flatten,
    List.map_map, List.map_map]
  rfl

-- ==================== C2 ================================================

/-- C2: diet (and day) totals — sums of per-meal totals — equal the total
of the concatenation of all food items; in the weekly recap over the
configured 35-day list, each week's `totali` is the component-wise sum of
its 7 days' totals, and the sum of the 5 week totals equals the period
total over all 35 days. -/
theorem c2_aggregation_associative :
    (∀ (foods : FoodsData) (diet : Diet),
      calculate_diet_nutrition foods diet =
        calculate_food_items_nutrition foods
          ((diet.meals.map (fun m => (m.2).food_items)).flatten)) ∧
    (∀ (foods : FoodsData) (day : Day),
      calculate_day_nutrition foods day =
        calculate_food_items_nutrition foods
          ((day.meals.map (fun m => (m.2).food_items)).flatten)) ∧
    (∀ (foods : FoodsData) (mp : MealPlan),
      (calculate_weekly_recap foods mp standardDayNames).settimane =
        (List.range 5).map (fun w =>
          ("settimana_" ++ toString (w + 1),
           ⟨(nvSum ((weekDayIds (w + 1)).map (dayTotal foods mp))).to_dict,
            weekDayIds (w + 1)⟩)) ∧
      nvSum ((List.range 5).map (fun w =>
          nvSum ((weekDayIds (w + 1)).map (dayTotal foods mp)))) =
        nvSum (standardDayNames.map (dayTotal foods mp))) := by
  refine ⟨?_, ?_, ?_⟩
  · intro foods diet
    exact meals_fold_concat foods diet.meals
  · intro foods day
    exact meals_fold_concat foods day.meals
  · intro foods mp
    constructor
    · rw [weekly_recap_eq]
    · exact weeks_sum_eq_period foods mp

-- ==================== C7 ================================================

theorem standardDayNames_eq :
    standardDayNames =
      ["Giorno_1", "Giorno_2", "Giorno_3", "Giorno_4", "Giorno_5", "Giorno_6", "Giorno_7", "Giorno_8", "Giorno_9", "Giorno_10", "Giorno_11", "Giorno_12", "Giorno_13", "Giorno_14", "Giorno_15", "Giorno_16", "Giorno_17", "Giorno_18", "Giorno_19", "Giorno_20", "Giorno_21", "Giorno_22", "Giorno_23", "Giorno_24", "Giorno_25", "Giorno_26", "Giorno_27", "Giorno_28", "Giorno_29", "Giorno_30", "Giorno_31", "Giorno_32", "Giorno_33", "Giorno_34", "Giorno_35"] := by
  decide

theorem getNum_to_dict_kcal (nv : NutritionValues) :
    getNum nv.to_dict "kcal" = nv.kcal := rfl

theorem cDay_nutrition (n : String) (q : ℚ) :
    calculate_day_nutrition cFoods (cDay n q) = ⟨q / 100, 0, 0, 0, 0⟩ := by
  unfold calculate_day_nutrition cDay calculate_meal_nutrition
    calculate_food_items_nutrition calculate_food_item_nutrition cFoods
  ext <;>
    simp [List.foldl, dictGet_cons, getNum, dictGet,
      NutritionValues.add_kcal, NutritionValues.add_carbs,
      NutritionValues.add_protein, NutritionValues.add_fat,
      NutritionValues.add_fiber]

theorem cPlan_days_eq :
    cPlan.days = [("Giorno_1", cDay "Giorno_1" 3000),
                  ("Giorno_8", cDay "Giorno_8" 4000)] := rfl

theorem dayTotal_cPlan_zero (dn : String)
    (h1 : ("Giorno_1" == dn) = false) (h8 : ("Giorno_8" == dn) = false) :
    dayTotal cFoods cPlan dn = {} := by
  unfold dayTotal
  rw [cPlan_days_eq, dictGet_cons, dictGet_cons, h1, h8]
  rfl

theorem dayTotal_cPlan_1 :
    dayTotal cFoods cPlan "Giorno_1" = ⟨30, 0, 0, 0, 0⟩ := by
  rw [show dayTotal cFoods cPlan "Giorno_1" =
    calculate_day_nutrition cFoods (cDay "Giorno_1" 3000) from rfl]
  rw [cDay_nutrition]
  ext <;> norm_num

theorem dayTotal_cPlan_8 :
    dayTotal cFoods cPlan "Giorno_8" = ⟨40, 0, 0, 0, 0⟩ := by
  rw [show dayTotal cFoods cPlan "Giorno_8" =
    calculate_day_nutrition cFoods (cDay "Giorno_8" 4000) from rfl]
  rw [cDay_nutrition]
  ext <;> norm_num

theorem dayTotal_cPlan_cases (dn : String) :
    dayTotal cFoods cPlan dn = {} ∨
    dayTotal cFoods cPlan dn = ⟨30, 0, 0, 0, 0⟩ ∨
    dayTotal cFoods cPlan dn = ⟨40, 0, 0, 0, 0⟩ := by
  cases hb1 : "Giorno_1" == dn
  · cases hb8 : "Giorno_8" == dn
    · exact Or.inl (dayTotal_cPlan_zero dn hb1 hb8)
    · have hdn : "Giorno_8" = dn := eq_of_beq hb8
      subst hdn
      exact Or.inr (Or.inr dayTotal_cPlan_8)
  · have hdn : "Giorno_1" = dn := eq_of_beq hb1
    subst hdn
    exact Or.inr (Or.inl dayTotal_cPlan_1)

theorem weekSum_cPlan_1 :
    nvSum ((weekDayIds 1).map (dayTotal cFoods cPlan)) = ⟨30, 0, 0, 0, 0⟩ := by
  rw [show weekDayIds 1 = ["Giorno_1", "Giorno_2", "Giorno_3", "Giorno_4", "Giorno_5", "Giorno_6", "Giorno_7"] from by decide]
  simp only [List.map_cons, List.map_nil]
  rw [dayTotal_cPlan_1,
    dayTotal_cPlan_zero "Giorno_2" rfl rfl,
    dayTotal_cPlan_zero "Giorno_3" rfl rfl,
    dayTotal_cPlan_zero "Giorno_4" rfl rfl,
    dayTotal_cPlan_zero "Giorno_5" rfl rfl,
    dayTotal_cPlan_zero "Giorno_6" rfl rfl,
    dayTotal_cPlan_zero "Giorno_7" rfl rfl]
  ext <;>
    simp [nvSum, List.foldl, NutritionValues.add_kcal, NutritionValues.add_carbs,
      NutritionValues.add_protein, NutritionValues.add_fat,
      NutritionValues.add_fiber]

theorem weekSum_cPlan_2 :
    nvSum ((weekDayIds 2).map (dayTotal cFoods cPlan)) = ⟨40, 0, 0, 0, 0⟩ := by
  rw [show weekDayIds 2 = ["Giorno_8", "Giorno_9", "Giorno_10", "Giorno_11", "Giorno_12", "Giorno_13", "Giorno_14"] from by decide]
  simp only [List.map_cons, List.map_nil]
  rw [dayTotal_cPlan_8,
    dayTotal_cPlan_zero "Giorno_9" rfl rfl,
    dayTotal_cPlan_zero "Giorno_10" rfl rfl,
    dayTotal_cPlan_zero "Giorno_11" rfl rfl,
    dayTotal_cPlan_zero "Giorno_12" rfl rfl,
    dayTotal_cPlan_zero "Giorno_13" rfl rfl,
    dayTotal_cPlan_zero "Giorno_14" rfl rfl]
  ext <;>
    simp [nvSum, List.foldl, NutritionValues.add_kcal, NutritionValues.add_carbs,
      NutritionValues.add_protein, NutritionValues.add_fat,
      NutritionValues.add_fiber]

theorem weekSum_cPlan_3 :
    nvSum ((weekDayIds 3).map (dayTotal cFoods cPlan)) = {} := by
  rw [show weekDayIds 3 = ["Giorno_15", "Giorno_16", "Giorno_17", "Giorno_18", "Giorno_19", "Giorno_20", "Giorno_21"] from by decide]
  simp only [List.map_cons, List.map_nil]
  rw [dayTotal_cPlan_zero "Giorno_15" rfl rfl,
    dayTotal_cPlan_zero "Giorno_16" rfl rfl,
    dayTotal_cPlan_zero "Giorno_17" rfl rfl,
    dayTotal_cPlan_zero "Giorno_18" rfl rfl,
    dayTotal_cPlan_zero "Giorno_19" rfl rfl,
    dayTotal_cPlan_zero "Giorno_20" rfl rfl,
    dayTotal_cPlan_zero "Giorno_21" rfl rfl]
  ext <;>
    simp [nvSum, List.foldl, NutritionValues.add_kcal, NutritionValues.add_carbs,
      NutritionValues.add_protein, NutritionValues.add_fat,
      NutritionValues.add_fiber]

theorem weekSum_cPlan_4 :
    nvSum ((weekDayIds 4).map (dayTotal cFoods cPlan)) = {} := by
  rw [show weekDayIds 4 = ["Giorno_22", "Giorno_23", "Giorno_24", "Giorno_25", "Giorno_26", "Giorno_27", "Giorno_28"] from by decide]
  simp only [List.map_cons, List.map_nil]
  rw [dayTotal_cPlan_zero "Giorno_22" rfl rfl,
    dayTotal_cPlan_zero "Giorno_23" rfl rfl,
    dayTotal_cPlan_zero "Giorno_24" rfl rfl,
    dayTotal_cPlan_zero "Giorno_25" rfl rfl,
    dayTotal_cPlan_zero "Giorno_26" rfl rfl,
    dayTotal_cPlan_zero "Giorno_27" rfl rfl,
    dayTotal_cPlan_zero "Giorno_28" rfl rfl]
  ext <;>
    simp [nvSum, List.foldl, NutritionValues.add_kcal, NutritionValues.add_carbs,
      NutritionValues.add_protein, NutritionValues.add_fat,
      NutritionValues.add_fiber]

theorem weekSum_cPlan_5 :
    nvSum ((weekDayIds 5).map (dayTotal cFoods cPlan)) = {} := by
  rw [show weekDayIds 5 = ["Giorno_29", "Giorno_30", "Giorno_31", "Giorno_32", "Giorno_33", "Giorno_34", "Giorno_35"] from by decide]
  simp only [List.map_cons, List.map_nil]
  rw [dayTotal_cPlan_zero "Giorno_29" rfl rfl,
    dayTotal_cPlan_zero "Giorno_30" rfl rfl,
    dayTotal_cPlan_zero "Giorno_31" rfl rfl,
    dayTotal_cPlan_zero "Giorno_32" rfl rfl,
    dayTotal_cPlan_zero "Giorno_33" rfl rfl,
    dayTotal_cPlan_zero "Giorno_34" rfl rfl,
    dayTotal_cPlan_zero "Giorno_35" rfl rfl]
  ext <;>
    simp [nvSum, List.foldl, NutritionValues.add_kcal, NutritionValues.add_carbs,
      NutritionValues.add_protein, NutritionValues.add_fat,
      NutritionValues.add_fiber]

theorem recapNutritionEntries_eq (foods : FoodsData) (mp : MealPlan) :
    recapNutritionEntries (calculate_weekly_recap foods mp standardDayNames) =
      standardDayNames.map (fun dn => (dayTotal foods mp dn).to_dict) ++
      (List.range 5).map (fun w =>
        (nvSum ((weekDayIds (w + 1)).map (dayTotal foods mp))).to_dict) := by
  rw [weekly_recap_eq]
  simp only [recapNutritionEntries, List.map_map]
  rfl

/-- C7 counterexample: for the sample plan (30 kcal on day 1, 40 kcal on
day 8) the kcal values stored in the recap are exactly `c7KcalList`
(per-day entries then week aggregates), the period total is 70 kcal, yet
70 does not occur among the stored values (no period aggregate) and
neither does 70/35 = 2 (no average-per-day), so the claim is false at
this meal plan. -/
theorem c7_counterexample :
    (recapNutritionEntries (calculate_weekly_recap cFoods cPlan
        standardDayNames)).map (fun e => getNum e "kcal") = c7KcalList ∧
    (nvSum (standardDayNames.map (dayTotal cFoods cPlan))).kcal = 70 ∧
    (70 : ℚ) ∉ c7KcalList ∧
    (70 : ℚ) / 35 = 2 ∧ (2 : ℚ) ∉ c7KcalList := by
  refine ⟨?_, ?_, by decide, by norm_num, by decide⟩
  · rw [recapNutritionEntries_eq, List.map_append, List.map_map,
      List.map_map]
    rw [standardDayNames_eq,
      show List.range 5 = [0, 1, 2, 3, 4] from rfl]
    simp only [List.map_cons, List.map_nil, Function.comp]
    norm_num
    rw [dayTotal_cPlan_1, dayTotal_cPlan_8,
      dayTotal_cPlan_zero "Giorno_2" rfl rfl,
      dayTotal_cPlan_zero "Giorno_3" rfl rfl,
      dayTotal_cPlan_zero "Giorno_4" rfl rfl,
      dayTotal_cPlan_zero "Giorno_5" rfl rfl,
      dayTotal_cPlan_zero "Giorno_6" rfl rfl,
      dayTotal_cPlan_zero "Giorno_7" rfl rfl,
      dayTotal_cPlan_zero "Giorno_9" rfl rfl,
      dayTotal_cPlan_zero "Giorno_10" rfl rfl,
      dayTotal_cPlan_zero "Giorno_11" rfl rfl,
      dayTotal_cPlan_zero "Giorno_12" rfl rfl,
      dayTotal_cPlan_zero "Giorno_13" rfl rfl,
      dayTotal_cPlan_zero "Giorno_14" rfl rfl,
      dayTotal_cPlan_zero "Giorno_15" rfl rfl,
      dayTotal_cPlan_zero "Giorno_16" rfl rfl,
      dayTotal_cPlan_zero "Giorno_17" rfl rfl,
      dayTotal_cPlan_zero "Giorno_18" rfl rfl,
      dayTotal_cPlan_zero "Giorno_19" rfl rfl,
      dayTotal_cPlan_zero "Giorno_20" rfl rfl,
      dayTotal_cPlan_zero "Giorno_21" rfl rfl,
      dayTotal_cPlan_zero "Giorno_22" rfl rfl,
      dayTotal_cPlan_zero "Giorno_23" rfl rfl,
      dayTotal_cPlan_zero "Giorno_24" rfl rfl,
      dayTotal_cPlan_zero "Giorno_25" rfl rfl,
      dayTotal_cPlan_zero "Giorno_26" rfl rfl,
      dayTotal_cPlan_zero "Giorno_27" rfl rfl,
      dayTotal_cPlan_zero "Giorno_28" rfl rfl,
      dayTotal_cPlan_zero "Giorno_29" rfl rfl,
      dayTotal_cPlan_zero "Giorno_30" rfl rfl,
      dayTotal_cPlan_zero "Giorno_31" rfl rfl,
      dayTotal_cPlan_zero "Giorno_32" rfl rfl,
      dayTotal_cPlan_zero "Giorno_33" rfl rfl,
      dayTotal_cPlan_zero "Giorno_34" rfl rfl,
      dayTotal_cPlan_zero "Giorno_35" rfl rfl,
      weekSum_cPlan_1, weekSum_cPlan_2, weekSum_cPlan_3, weekSum_cPlan_4,
      weekSum_cPlan_5]
    simp [getNum_to_dict_kcal, c7KcalList]
  · rw [standardDayNames_eq]
    simp only [List.map_cons, List.map_nil]
    rw [dayTotal_cPlan_1, dayTotal_cPlan_8,
      dayTotal_cPlan_zero "Giorno_2" rfl rfl,
      dayTotal_cPlan_zero "Giorno_3" rfl rfl,
      dayTotal_cPlan_zero "Giorno_4" rfl rfl,
      dayTotal_cPlan_zero "Giorno_5" rfl rfl,
      dayTotal_cPlan_zero "Giorno_6" rfl rfl,
      dayTotal_cPlan_zero "Giorno_7" rfl rfl,
      dayTotal_cPlan_zero "Giorno_9" rfl rfl,
      dayTotal_cPlan_zero "Giorno_10" rfl rfl,
      dayTotal_cPlan_zero "Giorno_11" rfl rfl,
      dayTotal_cPlan_zero "Giorno_12" rfl rfl,
      dayTotal_cPlan_zero "Giorno_13" rfl rfl,
      dayTotal_cPlan_zero "Giorno_14" rfl rfl,
      dayTotal_cPlan_zero "Giorno_15" rfl rfl,
      dayTotal_cPlan_zero "Giorno_16" rfl rfl,
      dayTotal_cPlan_zero "Giorno_17" rfl rfl,
      dayTotal_cPlan_zero "Giorno_18" rfl rfl,
      dayTotal_cPlan_zero "Giorno_19" rfl rfl,
      dayTotal_cPlan_zero "Giorno_20" rfl rfl,
      dayTotal_cPlan_zero "Giorno_21" rfl rfl,
      dayTotal_cPlan_zero "Giorno_22" rfl rfl,
      dayTotal_cPlan_zero "Giorno_23" rfl rfl,
      dayTotal_cPlan_zero "Giorno_24" rfl rfl,
      dayTotal_cPlan_zero "Giorno_25" rfl rfl,
      dayTotal_cPlan_zero "Giorno_26" rfl rfl,
      dayTotal_cPlan_zero "Giorno_27" rfl rfl,
      dayTotal_cPlan_zero "Giorno_28" rfl rfl,
      dayTotal_cPlan_zero "Giorno_29" rfl rfl,
      dayTotal_cPlan_zero "Giorno_30" rfl rfl,
      dayTotal_cPlan_zero "Giorno_31" rfl rfl,
      dayTotal_cPlan_zero "Giorno_32" rfl rfl,
      dayTotal_cPlan_zero "Giorno_33" rfl rfl,
      dayTotal_cPlan_zero "Giorno_34" rfl rfl,
      dayTotal_cPlan_zero "Giorno_35" rfl rfl]
    simp [nvSum, List.foldl, NutritionValues.add_kcal]
    norm_num

/-- C7 amended: the recap derived from a meal plan over the configured
35-day list contains exactly the 35 per-day totals (keyed
`"Giorno_1".."Giorno_35"`) and the five week aggregates (keyed
`"settimana_1".."settimana_5"`); the period total exists only implicitly
— the sum of the five stored week totals equals the sum over all 35 days
— and no average-per-day value is computed or stored anywhere. -/
theorem c7_recap_amended :
    ∀ (foods : FoodsData) (mp : MealPlan),
      dictKeys (calculate_weekly_recap foods mp standardDayNames).days =
        standardDayNames ∧
      dictKeys
          (calculate_weekly_recap foods mp standardDayNames).settimane =
        ["settimana_1", "settimana_2", "settimana_3", "settimana_4",
         "settimana_5"] ∧
      nvSum
          ((calculate_weekly_recap foods mp standardDayNames).settimane.map
            (fun p => NutritionValues.from_dict (p.2).totali)) =
        nvSum (standardDayNames.map (dayTotal foods mp)) := by
  intro foods mp
  have hkeys : ∀ (β : Type) (g : ℕ → String) (h : ℕ → β) (l : List ℕ),
      dictKeys (l.map (fun w => (g w, h w))) = l.map g := by
    intro β g h l
    simp only [dictKeys, List.map_map]
    rfl
  refine ⟨?_, ?_, ?_⟩
  · rw [weekly_recap_eq]
    simp only [dictKeys, List.map_map]
    rfl
  · rw [weekly_recap_eq]
    rw [hkeys _ (fun w => "settimana_" ++ toString (w + 1))
      (fun w =>
        (⟨(nvSum ((weekDayIds (w + 1)).map (dayTotal foods mp))).to_dict,
          weekDayIds (w + 1)⟩ : WeekRecap)) (List.range 5)]
    decide
  · rw [weekly_recap_eq]
    simp only [List.map_map]
    rw [show ((List.range 5).map
        ((fun p : String × WeekRecap =>
            NutritionValues.from_dict (p.2).totali) ∘
          (fun w => ("settimana_" ++ toString (w + 1),
            ⟨(nvSum ((weekDayIds (w + 1)).map (dayTotal foods mp))).to_dict,
             weekDayIds (w + 1)⟩)))) =
      ((List.range 5).map (fun w =>
        nvSum ((weekDayIds (w + 1)).map (dayTotal foods mp)))) from
      List.map_congr_left (fun w _ => nv_from_to _)]
    exact weeks_sum_eq_period foods mp

end MeatPlanner
